import Mathlib

/-!
# vokal/ses: a shallow embedding of `ses.go`

The Go file `ses.go` builds the parameter set of an Amazon SES `SendEmail`
call, signs the current date with HMAC-SHA256 and performs one HTTP exchange.

Conventions of the embedding.

* A Go `string` and a Go `[]byte` are both sequences of bytes, so both are
  `Bytes := List UInt8`; the conversions `[]uint8(s)` and `string(b)` are the
  identity.  `str "..."` is the byte sequence of a source literal.
* A Go `error` is identified by the text its `Error()` method returns.
* A Go pair `(string, error)` is `Bytes × Option GoError` (`none` is `nil`).
* The standard-library functions the file calls (`crypto/sha256`,
  `crypto/hmac`, `encoding/base64`, `net/url` escaping and `Values`,
  `time.Format` for the one layout used, `fmt.Sprintf` for the verbs used) are
  written out as executable definitions in the first half of the file.
* The clock, `url.Parse` and `http.DefaultClient.Do` are the environment: they
  are fields of `World`, together with the log of requests handed to the
  client and of lines written by `log.Printf`.
-/

set_option maxRecDepth 8000

namespace Ses

/-! ## Bytes and strings -/

/-- A Go `string` or `[]byte`. -/
abbrev Bytes := List UInt8

/-- The bytes (UTF-8) of a source-code string literal. -/
def str (s : String) : Bytes := s.data.flatMap String.utf8EncodeChar

/-- Go's `strings.Contains(s, sub)` as a proposition: `sub` occurs in `s`. -/
def Contains (s sub : Bytes) : Prop := sub <:+: s

instance (s sub : Bytes) : Decidable (Contains s sub) := by
  unfold Contains; infer_instance

/-! ## `crypto/sha256` (FIPS 180-4) -/

/-- Reduction of a natural number to a 32-bit word. -/
def w32 (x : Nat) : Nat := x % 2 ^ 32

/-- Rotation to the right of a 32-bit word. -/
def rotr (x n : Nat) : Nat := w32 ((x >>> n) ||| (x <<< (32 - n)))

def bigSigma0 (x : Nat) : Nat := rotr x 2 ^^^ rotr x 13 ^^^ rotr x 22
def bigSigma1 (x : Nat) : Nat := rotr x 6 ^^^ rotr x 11 ^^^ rotr x 25
def smallSigma0 (x : Nat) : Nat := rotr x 7 ^^^ rotr x 18 ^^^ (x >>> 3)
def smallSigma1 (x : Nat) : Nat := rotr x 17 ^^^ rotr x 19 ^^^ (x >>> 10)

/-- The choice function: bits of `y` where `x` is set, bits of `z` elsewhere. -/
def ch (x y z : Nat) : Nat := (x &&& y) ^^^ ((x ^^^ 0xffffffff) &&& z)

/-- The majority function. -/
def maj (x y z : Nat) : Nat := (x &&& y) ^^^ (x &&& z) ^^^ (y &&& z)

/-- The 64 round constants of SHA-256. -/
def sha256K : List Nat :=
  [0x428a2f98, 0x71374491, 0xb5c0fbcf, 0xe9b5dba5, 0x3956c25b, 0x59f111f1, 0x923f82a4, 0xab1c5ed5,
   0xd807aa98, 0x12835b01, 0x243185be, 0x550c7dc3, 0x72be5d74, 0x80deb1fe, 0x9bdc06a7, 0xc19bf174,
   0xe49b69c1, 0xefbe4786, 0x0fc19dc6, 0x240ca1cc, 0x2de92c6f, 0x4a7484aa, 0x5cb0a9dc, 0x76f988da,
   0x983e5152, 0xa831c66d, 0xb00327c8, 0xbf597fc7, 0xc6e00bf3, 0xd5a79147, 0x06ca6351, 0x14292967,
   0x27b70a85, 0x2e1b2138, 0x4d2c6dfc, 0x53380d13, 0x650a7354, 0x766a0abb, 0x81c2c92e, 0x92722c85,
   0xa2bfe8a1, 0xa81a664b, 0xc24b8b70, 0xc76c51a3, 0xd192e819, 0xd6990624, 0xf40e3585, 0x106aa070,
   0x19a4c116, 0x1e376c08, 0x2748774c, 0x34b0bcb5, 0x391c0cb3, 0x4ed8aa4a, 0x5b9cca4f, 0x682e6ff3,
   0x748f82ee, 0x78a5636f, 0x84c87814, 0x8cc70208, 0x90befffa, 0xa4506ceb, 0xbef9a3f7, 0xc67178f2]

/-- The initial hash value of SHA-256. -/
def sha256Init : List Nat :=
  [0x6a09e667, 0xbb67ae85, 0x3c6ef372, 0xa54ff53a, 0x510e527f, 0x9b05688c, 0x1f83d9ab, 0x5be0cd19]

/-- Big-endian words of a block of bytes, four bytes to a word. -/
def beWords : List Nat → List Nat
  | a :: b :: c :: d :: rest => (a * 2 ^ 24 + b * 2 ^ 16 + c * 2 ^ 8 + d) :: beWords rest
  | _ => []

/-- The four big-endian bytes of a 32-bit word. -/
def wordBytes (x : Nat) : List Nat :=
  [x / 2 ^ 24 % 256, x / 2 ^ 16 % 256, x / 2 ^ 8 % 256, x % 256]

/-- Extends the message schedule by `n` words.  The schedule is kept newest
word first, so the word computed is `σ1(w[t-2]) + w[t-7] + σ0(w[t-15]) + w[t-16]`. -/
def extendSchedule : Nat → List Nat → List Nat
  | 0, ws => ws
  | n + 1, ws =>
    extendSchedule n
      (w32 (smallSigma1 (ws.getD 1 0) + ws.getD 6 0 + smallSigma0 (ws.getD 14 0) + ws.getD 15 0) :: ws)

/-- The 64 words of the message schedule of a 64-byte block, oldest first. -/
def schedule (block : List Nat) : List Nat :=
  (extendSchedule 48 (beWords block).reverse).reverse

/-- One round of the compression function on the working variables `a..h`. -/
def sha256Round (st : List Nat) (kw : Nat × Nat) : List Nat :=
  match st with
  | [a, b, c, d, e, f, g, h] =>
    let t1 := h + bigSigma1 e + ch e f g + kw.1 + kw.2
    let t2 := bigSigma0 a + maj a b c
    [w32 (t1 + t2), a, b, c, w32 (d + t1), e, f, g]
  | _ => st

/-- The compression function: 64 rounds on a block, then the feed-forward sum. -/
def compress (hs block : List Nat) : List Nat :=
  List.zipWith (fun x y => w32 (x + y)) hs
    ((sha256K.zip (schedule block)).foldl sha256Round hs)

/-- The padding of a message of `len` bytes: `0x80`, zero bytes up to 56 modulo
64, and the length in bits as a 64-bit big-endian number. -/
def sha256Pad (len : Nat) : List Nat :=
  0x80 :: List.replicate ((64 + 55 - len % 64) % 64) 0 ++
    (List.range 8).map (fun i => (len * 8) / 2 ^ (8 * (7 - i)) % 256)

/-- Compresses the first `n` 64-byte blocks of `bs` into the state `hs`. -/
def sha256Blocks : Nat → List Nat → List Nat → List Nat
  | 0, hs, _ => hs
  | n + 1, hs, bs => sha256Blocks n (compress hs (bs.take 64)) (bs.drop 64)

/-- The function `sha256.Sum256`: the 32-byte SHA-256 digest of a message. -/
def sha256 (msg : Bytes) : Bytes :=
  let bs := msg.map UInt8.toNat ++ sha256Pad msg.length
  ((sha256Blocks (bs.length / 64) sha256Init bs).flatMap wordBytes).map UInt8.ofNat

/-! ## `crypto/hmac` (RFC 2104) -/

/-- The block size of SHA-256 in bytes. -/
def sha256BlockSize : Nat := 64

/-- The key as `hmac.New` prepares it: hashed when longer than a block, then
padded with zero bytes to a whole block. -/
def hmacKey (key : Bytes) : Bytes :=
  let k := if key.length > sha256BlockSize then sha256 key else key
  k ++ List.replicate (sha256BlockSize - k.length) 0

/-- The digest `h.Sum(nil)` after `h := hmac.New(sha256.New, key); h.Write(msg)`. -/
def hmacSHA256 (key msg : Bytes) : Bytes :=
  let k := hmacKey key
  sha256 (k.map (· ^^^ 0x5c) ++ sha256 (k.map (· ^^^ 0x36) ++ msg))

/-! ## `encoding/base64` -/

/-- The alphabet of `base64.StdEncoding`. -/
def base64Alphabet : Bytes :=
  str "ABCDEFGHIJKLMNOPQRSTUVWXYZabcdefghijklmnopqrstuvwxyz0123456789+/"

/-- The character of the alphabet for a 6-bit value. -/
def base64Char (i : Nat) : UInt8 := base64Alphabet.getD (i % 64) 0

/-- The function `base64.StdEncoding.EncodeToString`: three bytes become four
characters, and a final group of one or two bytes is padded with `=`. -/
def base64Encode : Bytes → Bytes
  | a :: b :: c :: rest =>
    let n := a.toNat * 65536 + b.toNat * 256 + c.toNat
    base64Char (n / 262144) :: base64Char (n / 4096) :: base64Char (n / 64) :: base64Char n ::
      base64Encode rest
  | [a, b] =>
    let n := a.toNat * 65536 + b.toNat * 256
    [base64Char (n / 262144), base64Char (n / 4096), base64Char (n / 64), 61]
  | [a] =>
    let n := a.toNat * 65536
    [base64Char (n / 262144), base64Char (n / 4096), 61, 61]
  | [] => []

/-! ## `net/url`: query escaping and `url.Values` -/

/-- The function `shouldEscape(c, encodeQueryComponent)`: letters, digits and
the marks `-`, `_`, `.`, `~` are kept, every other byte is escaped. -/
def shouldEscape (c : UInt8) : Bool :=
  !((97 ≤ c && c ≤ 122) || (65 ≤ c && c ≤ 90) || (48 ≤ c && c ≤ 57) ||
    c == 45 || c == 95 || c == 46 || c == 126)

/-- The digit table `upperhex`. -/
def upperhex : Bytes := str "0123456789ABCDEF"

/-- The function `url.QueryEscape`: a space becomes `+`, a byte that must be
escaped becomes `%` and two upper-case hexadecimal digits. -/
def QueryEscape (s : Bytes) : Bytes :=
  s.flatMap fun c =>
    if c == 32 then [43]
    else if shouldEscape c then [37, upperhex.getD (c.toNat / 16) 0, upperhex.getD (c.toNat % 16) 0]
    else [c]

/-- Go's `<` on strings: lexicographic order of the bytes. -/
def stringLt : Bytes → Bytes → Bool
  | [], [] => false
  | [], _ :: _ => true
  | _ :: _, [] => false
  | a :: as, b :: bs => a < b || (a == b && stringLt as bs)

/-- Insertion of a string into a sorted list of strings. -/
def insertString (k : Bytes) : List Bytes → List Bytes
  | [] => [k]
  | x :: xs => if stringLt x k then x :: insertString k xs else k :: x :: xs

/-- The result of `sort.Strings`: the strings in increasing order. -/
def sortStrings (ks : List Bytes) : List Bytes := ks.foldr insertString []

/-- The type `url.Values`, a `map[string][]string`: one entry for each key
that is present, with the values added under it in order. -/
abbrev Values := List (Bytes × List Bytes)

/-- The empty map `make(url.Values)`. -/
def Values.make : Values := []

/-- The map lookup `v[key]`; `none` when the key is absent. -/
def Values.lookup (v : Values) (key : Bytes) : Option (List Bytes) := List.lookup key v

/-- The keys present in the map. -/
def Values.keys (v : Values) : List Bytes := v.map Prod.fst

/-- The method `Values.Add`: `v[key] = append(v[key], value)`. -/
def Values.Add : Values → Bytes → Bytes → Values
  | [], key, value => [(key, [value])]
  | (k, vs) :: rest, key, value =>
    if k = key then (k, vs ++ [value]) :: rest else (k, vs) :: Values.Add rest key value

/-- One step of the loops of `Values.Encode`: `&` when the buffer is not empty,
then the escaped key, `=`, and the escaped value. -/
def encodePair (keyEscaped : Bytes) (buf value : Bytes) : Bytes :=
  (if buf.length > 0 then buf ++ str "&" else buf) ++ keyEscaped ++ str "=" ++ QueryEscape value

/-- The method `Values.Encode`: the keys are sorted, and for each key in that
order each of its values is written as `key=value`, the pairs separated by `&`. -/
def Values.Encode (v : Values) : Bytes :=
  (sortStrings v.keys).foldl
    (fun buf k => ((v.lookup k).getD []).foldl (encodePair (QueryEscape k)) buf) []

/-! ## `fmt` and `time` -/

/-- The decimal digits of a natural number. -/
def decimal (n : Nat) : Bytes := (Nat.toDigits 10 n).map fun c => UInt8.ofNat c.toNat

/-- The verb `%d` of `fmt.Sprintf` on an `int`. -/
def formatInt (x : Int) : Bytes :=
  if x < 0 then 45 :: decimal x.natAbs else decimal x.toNat

/-- The helper `appendInt` of package `time`: the decimal digits padded with
zeros to `width` digits, after a `-` for a negative number. -/
def appendInt (x : Int) (width : Nat) : Bytes :=
  let ds := decimal x.natAbs
  (if x < 0 then [45] else []) ++ List.replicate (width - ds.length) 48 ++ ds

/-- Year, month (1 to 12) and day of the month of a day counted from
1970-01-01, in the proleptic Gregorian calendar, as `Time.Date` gives them. -/
def civilFromDays (days : Int) : Int × Nat × Nat :=
  let z := days + 719468
  let era := z / 146097
  let doe := (z - era * 146097).toNat
  let yoe := (doe - doe / 1460 + doe / 36524 - doe / 146096) / 365
  let doy := doe - (365 * yoe + yoe / 4 - yoe / 100)
  let mp := (5 * doy + 2) / 153
  let d := doy - (153 * mp + 2) / 5 + 1
  let m := if mp < 10 then mp + 3 else mp - 9
  ((yoe : Int) + era * 400 + (if m ≤ 2 then 1 else 0), m, d)

/-- The three-letter names of the days of the week, Sunday first. -/
def shortDayNames : List Bytes :=
  [str "Sun", str "Mon", str "Tue", str "Wed", str "Thu", str "Fri", str "Sat"]

/-- The three-letter names of the months. -/
def shortMonthNames : List Bytes :=
  [str "Jan", str "Feb", str "Mar", str "Apr", str "May", str "Jun",
   str "Jul", str "Aug", str "Sep", str "Oct", str "Nov", str "Dec"]

/-- The value of `t.UTC().Format("Mon, 02 Jan 2006 15:04:05 -0700")` for the
instant `t` that lies `sec` seconds after 1970-01-01 00:00:00 UTC (the layout
has no fraction of a second, and the offset of UTC is `+0000`). -/
def formatDate (sec : Int) : Bytes :=
  let days := sec / 86400
  let rem := (sec % 86400).toNat
  let ymd := civilFromDays days
  shortDayNames.getD ((days + 4) % 7).toNat [] ++ str ", " ++
    appendInt ymd.2.2 2 ++ str " " ++ shortMonthNames.getD (ymd.2.1 - 1) [] ++ str " " ++
    appendInt ymd.1 4 ++ str " " ++
    appendInt (rem / 3600) 2 ++ str ":" ++ appendInt (rem / 60 % 60) 2 ++ str ":" ++
    appendInt (rem % 60) 2 ++ str " +0000"

/-! ## Errors, requests, responses and the environment -/

/-- A Go `error`, identified by the text of its `Error()` method. -/
structure GoError where
  Error : Bytes
deriving DecidableEq

/-- The function `errors.New`. -/
def errorsNew (text : Bytes) : GoError := ⟨text⟩

/-- The type `http.Header`, a `map[string][]string`. -/
abbrev Header := List (Bytes × List Bytes)

/-- The assignment `h[key] = value` on a header map. -/
def Header.assign : Header → Bytes → List Bytes → Header
  | [], key, value => [(key, value)]
  | (k, vs) :: rest, key, value =>
    if k = key then (k, value) :: rest else (k, vs) :: Header.assign rest key value

/-- The method `Header.Set`: `h[key] = []string{value}`.  The three keys the
program sets are already in canonical MIME form, so canonicalisation leaves
them as they are. -/
def Header.Set (h : Header) (key value : Bytes) : Header := Header.assign h key [value]

/-- The map lookup `h[key]`; `none` when the key is absent. -/
def Header.lookup (h : Header) (key : Bytes) : Option (List Bytes) := List.lookup key h

/-- The fields of `http.Request` that the program sets.  `URL` is the parsed
URL, kept as the text it was parsed from; `none` is the nil pointer. -/
structure Request where
  Method : Bytes
  URL : Option Bytes
  ProtoMajor : Nat
  ProtoMinor : Nat
  Close : Bool
  Header : Header
  Body : Bytes
deriving DecidableEq

/-- What the program observes of an `http.Response`: the status code, and the
outcome of `ioutil.ReadAll(r.Body)`, which is the bytes read together with the
error, if any, that ended the reading. -/
structure Response where
  StatusCode : Int
  Body : Bytes
  ReadErr : Option GoError
deriving DecidableEq

/-- The environment of a call and the trace it leaves.
`now` is the reading of `time.Now()` in seconds since 1970-01-01 00:00:00 UTC;
`urlParse` gives the error of `url.Parse` on a text, or `none` when it parses;
`Do` is `http.DefaultClient.Do`; `sent` lists the requests handed to `Do`, in
order; `logged` lists the lines written by `log.Printf`, in order. -/
structure World where
  now : Int
  urlParse : Bytes → Option GoError
  Do : Request → Except GoError Response
  sent : List Request
  logged : List Bytes

/-- The effect of `log.Printf` with the formatted line `line`. -/
def World.log (w : World) (line : Bytes) : World :=
  { w with logged := w.logged ++ [line] }

/-- The effect of handing `req` to `http.DefaultClient.Do`. -/
def World.send (w : World) (req : Request) : World :=
  { w with sent := w.sent ++ [req] }

/-- The function `http.NewRequest` (the method is `POST` at its one call, which
is a valid method, so only parsing the URL can fail). -/
def NewRequest (w : World) (method url body : Bytes) : Except GoError Request :=
  match w.urlParse url with
  | some err => .error err
  | none =>
    .ok { Method := method, URL := some url, ProtoMajor := 1, ProtoMinor := 1,
          Close := false, Header := [], Body := body }

/-! ## The program `ses.go` -/

/-- The constant `endpoint`. -/
def endpoint : Bytes := str "https://email.us-east-1.amazonaws.com"

/-- The type `aws.Auth` of package goamz: the credential pair. -/
structure Auth where
  AccessKey : Bytes
  SecretKey : Bytes
deriving DecidableEq

/-- The type `SES`. -/
structure SES where
  Auth : Auth
deriving DecidableEq

/-- The type `Email`. -/
structure Email where
  To : Bytes
  From : Bytes
  Subject : Bytes
  HTMLBody : Bytes
  Body : Bytes
deriving DecidableEq

/-- The function `authorizationHeader`. -/
def authorizationHeader (date accessKeyID secretAccessKey : Bytes) : List Bytes :=
  let signature := base64Encode (hmacSHA256 secretAccessKey date)
  let auth := str "AWS3-HTTPS AWSAccessKeyId=" ++ accessKeyID ++
    str ", Algorithm=HmacSHA256, Signature=" ++ signature
  [auth]

/-- The function `sesGet`. -/
def sesGet (w : World) (data : Values) (accessKeyID secretAccessKey : Bytes) :
    (Bytes × Option GoError) × World :=
  let urlstr := endpoint ++ str "?" ++ data.Encode
  let endpointURL : Option Bytes := if (w.urlParse urlstr).isSome then none else some urlstr
  let headers : Header := []
  let date := formatDate w.now
  let headers := headers.assign (str "Date") [date]
  let signature := base64Encode (hmacSHA256 secretAccessKey date)
  let auth := str "AWS3-HTTPS AWSAccessKeyId=" ++ accessKeyID ++
    str ", Algorithm=HmacSHA256, Signature=" ++ signature
  let headers := headers.assign (str "X-Amzn-Authorization") [auth]
  let req : Request :=
    { URL := endpointURL, Method := str "GET", ProtoMajor := 1, ProtoMinor := 1,
      Close := true, Header := headers, Body := [] }
  let w := w.send req
  match w.Do req with
  | .error err => (([], some err), w.log (str "http error: " ++ err.Error))
  | .ok r =>
    let resultbody := r.Body
    if r.StatusCode ≠ 200 then
      let w := w.log (str "error, status = " ++ formatInt r.StatusCode)
      let w := w.log (str "error response: " ++ resultbody)
      (([], some (errorsNew resultbody)), w)
    else
      ((resultbody, none), w)

/-- The function `sesPost`. -/
def sesPost (w : World) (data : Values) (accessKeyID secretAccessKey : Bytes) :
    (Bytes × Option GoError) × World :=
  let body := data.Encode
  match NewRequest w (str "POST") endpoint body with
  | .error err => (([], some err), w)
  | .ok req =>
    let req := { req with
      Header := req.Header.Set (str "Content-Type") (str "application/x-www-form-urlencoded") }
    let date := formatDate w.now
    let req := { req with Header := req.Header.Set (str "Date") date }
    let signature := base64Encode (hmacSHA256 secretAccessKey date)
    let auth := str "AWS3-HTTPS AWSAccessKeyId=" ++ accessKeyID ++
      str ", Algorithm=HmacSHA256, Signature=" ++ signature
    let req := { req with Header := req.Header.Set (str "X-Amzn-Authorization") auth }
    let w := w.send req
    match w.Do req with
    | .error err => (([], some err), w.log (str "http error: " ++ err.Error))
    | .ok r =>
      let resultbody := r.Body
      if r.StatusCode ≠ 200 then
        let w := w.log (str "error, status = " ++ formatInt r.StatusCode)
        let w := w.log (str "error response: " ++ resultbody)
        (([], some (errorsNew (str "error code " ++ formatInt r.StatusCode ++
          str ". response: " ++ resultbody))), w)
      else
        ((resultbody, none), w)

/-- The parameter set `data` that `Send` builds before it calls `sesPost`. -/
def sendData (s : SES) (email : Email) : Values :=
  let data := Values.make
  let data := data.Add (str "Action") (str "SendEmail")
  let data := data.Add (str "Source") email.From
  let data := data.Add (str "Destination.ToAddresses.member.1") email.To
  let data := data.Add (str "Message.Subject.Data") email.Subject
  let data := if email.Body ≠ [] then data.Add (str "Message.Body.Text.Data") email.Body else data
  let data :=
    if email.HTMLBody ≠ [] then data.Add (str "Message.Body.Html.Data") email.HTMLBody else data
  data.Add (str "AWSAccessKeyId") s.Auth.AccessKey

/-- The method `Send`. -/
def Send (w : World) (s : SES) (email : Email) : (Bytes × Option GoError) × World :=
  sesPost w (sendData s email) s.Auth.AccessKey s.Auth.SecretKey

/-! ## The requests the two transport functions build -/

/-- The request `sesPost` holds when it calls `http.DefaultClient.Do`
(line 132), written out field by field. -/
def postRequest (w : World) (data : Values) (accessKeyID secretAccessKey : Bytes) : Request :=
  { Method := str "POST", URL := some endpoint, ProtoMajor := 1, ProtoMinor := 1, Close := false,
    Header :=
      [(str "Content-Type", [str "application/x-www-form-urlencoded"]),
       (str "Date", [formatDate w.now]),
       (str "X-Amzn-Authorization",
         [str "AWS3-HTTPS AWSAccessKeyId=" ++ accessKeyID ++
           str ", Algorithm=HmacSHA256, Signature=" ++
           base64Encode (hmacSHA256 secretAccessKey (formatDate w.now))])],
    Body := data.Encode }

/-- The request `sesGet` holds when it calls `http.DefaultClient.Do`
(line 94), written out field by field. -/
def getRequest (w : World) (data : Values) (accessKeyID secretAccessKey : Bytes) : Request :=
  { Method := str "GET",
    URL := if (w.urlParse (endpoint ++ str "?" ++ data.Encode)).isSome then none
           else some (endpoint ++ str "?" ++ data.Encode),
    ProtoMajor := 1, ProtoMinor := 1, Close := true,
    Header :=
      [(str "Date", [formatDate w.now]),
       (str "X-Amzn-Authorization",
         [str "AWS3-HTTPS AWSAccessKeyId=" ++ accessKeyID ++
           str ", Algorithm=HmacSHA256, Signature=" ++
           base64Encode (hmacSHA256 secretAccessKey (formatDate w.now))])],
    Body := [] }

/-- The request body in the order in which the specification lists the
parameters (section 6, request shape of POST): action, source, destination,
subject, text body if present, HTML body if present, access-key id. -/
def specOrderBody (s : SES) (e : Email) : Bytes :=
  str "Action=SendEmail&Source=" ++ QueryEscape e.From ++
    str "&Destination.ToAddresses.member.1=" ++ QueryEscape e.To ++
    str "&Message.Subject.Data=" ++ QueryEscape e.Subject ++
    (if e.Body ≠ [] then str "&Message.Body.Text.Data=" ++ QueryEscape e.Body else []) ++
    (if e.HTMLBody ≠ [] then str "&Message.Body.Html.Data=" ++ QueryEscape e.HTMLBody else []) ++
    str "&AWSAccessKeyId=" ++ QueryEscape s.Auth.AccessKey

/-! ## Concrete environments and inputs -/

/-- An environment whose clock reads 2010-05-25 21:20:27 UTC, in which every
URL parses and the transport answers every request with `r`. -/
def worldAnswering (r : Response) : World :=
  { now := 1274822427, urlParse := fun _ => none, Do := fun _ => .ok r, sent := [], logged := [] }

/-- An environment in which every URL parses and the transport fails on every
request with `err`. -/
def worldFailing (err : GoError) : World :=
  { now := 1274822427, urlParse := fun _ => none, Do := fun _ => .error err,
    sent := [], logged := [] }

/-- An environment in which `url.Parse` fails on every text with `err`. -/
def worldUnparsable (err : GoError) : World :=
  { now := 1274822427, urlParse := fun _ => some err,
    Do := fun _ => .ok ⟨200, str "<ok/>", none⟩, sent := [], logged := [] }

/-- A client with the credentials `AKID` and `secret`. -/
def sampleClient : SES := ⟨⟨str "AKID", str "secret"⟩⟩

/-- An email with a text body and an HTML body. -/
def sampleEmail : Email :=
  { To := str "to@example.com", From := str "from@example.org", Subject := str "Hi there",
    HTMLBody := str "<b>hello</b>", Body := str "hello" }

/-- An email with neither body. -/
def bareEmail : Email :=
  { To := str "b", From := str "a", Subject := str "s", HTMLBody := [], Body := [] }

/-- The answer 403 with the body `AccessDenied`. -/
def accessDenied : Response := ⟨403, str "AccessDenied", none⟩

/-- The answer 200 with the body `<ok/>`. -/
def okResponse : Response := ⟨200, str "<ok/>", none⟩

/-- An answer 200 whose body breaks off: `ioutil.ReadAll` delivers the bytes
`<Send` and the error `unexpected EOF`. -/
def truncatedResponse : Response := ⟨200, str "<Send", some ⟨str "unexpected EOF"⟩⟩

/-- A transport error. -/
def dialError : GoError := ⟨str "dial tcp: connection refused"⟩

/-! ## Lemmas on the library functions -/

/-- RFC 4231, test case 2, as a check of `hmacSHA256` and `base64Encode`. -/
theorem hmacSHA256_rfc4231_case2 :
    base64Encode (hmacSHA256 (str "Jefe") (str "what do ya want for nothing?")) =
      str "W9zBRr9gdU5qBCQmCJV1x1oAPwidJzmDnexYuWTsOEM=" := by
  decide

/-- The date of the comment in the source, `Tue, 25 May 2010 21:20:27 +0000`. -/
theorem formatDate_example : formatDate 1274822427 = str "Tue, 25 May 2010 21:20:27 +0000" := by
  decide

theorem encodePair_nil (ke v : Bytes) : encodePair ke [] v = ke ++ str "=" ++ QueryEscape v := by
  simp [encodePair]

theorem encodePair_append (ke v a b : Bytes) :
    encodePair ke (a ++ str "=" ++ b) v =
      a ++ str "=" ++ b ++ str "&" ++ ke ++ str "=" ++ QueryEscape v := by
  have h1 : (str "=").length = 1 := rfl
  have h : (a ++ str "=" ++ b).length > 0 := by
    simp only [List.length_append, h1]; omega
  unfold encodePair
  rw [if_pos h]

theorem encode_fold (v : Values) (ks : List Bytes) (h : sortStrings v.keys = ks) :
    v.Encode =
      ks.foldl (fun buf k => ((v.lookup k).getD []).foldl (encodePair (QueryEscape k)) buf) [] := by
  rw [← h]; rfl

/-! ## Lemmas on the program -/

/-- The parameter set of `Send`, entry by entry. -/
theorem sendData_eq (s : SES) (e : Email) :
    sendData s e =
      [(str "Action", [str "SendEmail"]), (str "Source", [e.From]),
       (str "Destination.ToAddresses.member.1", [e.To]),
       (str "Message.Subject.Data", [e.Subject])] ++
      (if e.Body ≠ [] then [(str "Message.Body.Text.Data", [e.Body])] else []) ++
      (if e.HTMLBody ≠ [] then [(str "Message.Body.Html.Data", [e.HTMLBody])] else []) ++
      [(str "AWSAccessKeyId", [s.Auth.AccessKey])] := by
  unfold sendData
  by_cases hb : e.Body = [] <;> by_cases hh : e.HTMLBody = [] <;>
    simp only [hb, hh, ne_eq, not_true_eq_false, not_false_eq_true, if_true, if_false] <;> rfl

/-- The keys of the parameter set of `Send`. -/
theorem sendData_keys (s : SES) (e : Email) :
    (sendData s e).keys =
      [str "Action", str "Source", str "Destination.ToAddresses.member.1",
       str "Message.Subject.Data"] ++
      (if e.Body ≠ [] then [str "Message.Body.Text.Data"] else []) ++
      (if e.HTMLBody ≠ [] then [str "Message.Body.Html.Data"] else []) ++
      [str "AWSAccessKeyId"] := by
  rw [sendData_eq]
  by_cases hb : e.Body = [] <;> by_cases hh : e.HTMLBody = [] <;>
    simp only [hb, hh, ne_eq, not_true_eq_false, not_false_eq_true, if_true, if_false] <;> rfl

/-- The encoding of the parameter set of `Send`: the pairs in the order of
their keys. -/
theorem sendData_encode (s : SES) (e : Email) :
    (sendData s e).Encode =
      str "AWSAccessKeyId=" ++ QueryEscape s.Auth.AccessKey ++
        str "&Action=SendEmail&Destination.ToAddresses.member.1=" ++ QueryEscape e.To ++
        (if e.HTMLBody ≠ [] then str "&Message.Body.Html.Data=" ++ QueryEscape e.HTMLBody
         else []) ++
        (if e.Body ≠ [] then str "&Message.Body.Text.Data=" ++ QueryEscape e.Body else []) ++
        str "&Message.Subject.Data=" ++ QueryEscape e.Subject ++
        str "&Source=" ++ QueryEscape e.From := by
  rw [sendData_eq]
  by_cases hb : e.Body = [] <;> by_cases hh : e.HTMLBody = [] <;>
    simp only [hb, hh, ne_eq, not_true_eq_false, not_false_eq_true, if_true, if_false]
  · rw [encode_fold _ [str "AWSAccessKeyId", str "Action",
      str "Destination.ToAddresses.member.1", str "Message.Subject.Data", str "Source"]]
    · simp only [List.foldl_cons, List.foldl_nil]
      show encodePair _ (encodePair _ (encodePair _ (encodePair _ (encodePair _ [] _) _) _) _) _
        = _
      simp only [encodePair_append, encodePair_nil]
      simp only [List.append_assoc, List.append_nil]
      rfl
    · rfl
  · rw [encode_fold _ [str "AWSAccessKeyId", str "Action",
      str "Destination.ToAddresses.member.1", str "Message.Body.Html.Data",
      str "Message.Subject.Data", str "Source"]]
    · simp only [List.foldl_cons, List.foldl_nil]
      show encodePair _ (encodePair _ (encodePair _ (encodePair _ (encodePair _
        (encodePair _ [] _) _) _) _) _) _ = _
      simp only [encodePair_append, encodePair_nil]
      simp only [List.append_assoc, List.append_nil]
      rfl
    · rfl
  · rw [encode_fold _ [str "AWSAccessKeyId", str "Action",
      str "Destination.ToAddresses.member.1", str "Message.Body.Text.Data",
      str "Message.Subject.Data", str "Source"]]
    · simp only [List.foldl_cons, List.foldl_nil]
      show encodePair _ (encodePair _ (encodePair _ (encodePair _ (encodePair _
        (encodePair _ [] _) _) _) _) _) _ = _
      simp only [encodePair_append, encodePair_nil]
      simp only [List.append_assoc, List.append_nil]
      rfl
    · rfl
  · rw [encode_fold _ [str "AWSAccessKeyId", str "Action",
      str "Destination.ToAddresses.member.1", str "Message.Body.Html.Data",
      str "Message.Body.Text.Data", str "Message.Subject.Data", str "Source"]]
    · simp only [List.foldl_cons, List.foldl_nil]
      show encodePair _ (encodePair _ (encodePair _ (encodePair _ (encodePair _
        (encodePair _ (encodePair _ [] _) _) _) _) _) _) _ = _
      simp only [encodePair_append, encodePair_nil]
      simp only [List.append_assoc, List.append_nil]
      rfl
    · rfl

/-- The header map of `sesPost` after its three calls of `Header.Set`. -/
theorem postHeader_eq (d auth : Bytes) :
    Header.Set (Header.Set (Header.Set [] (str "Content-Type")
      (str "application/x-www-form-urlencoded")) (str "Date") d) (str "X-Amzn-Authorization") auth =
    [(str "Content-Type", [str "application/x-www-form-urlencoded"]), (str "Date", [d]),
     (str "X-Amzn-Authorization", [auth])] := by
  rfl

/-- The header map of `sesGet` after its two assignments. -/
theorem getHeader_eq (d auth : Bytes) :
    Header.assign (Header.assign [] (str "Date") [d]) (str "X-Amzn-Authorization") [auth] =
    [(str "Date", [d]), (str "X-Amzn-Authorization", [auth])] := by
  rfl

/-- When the endpoint does not parse, `sesPost` returns the error of
`http.NewRequest` and leaves the environment as it was. -/
theorem sesPost_unparsable (w : World) (data : Values) (a k : Bytes) (err : GoError)
    (h : w.urlParse endpoint = some err) : sesPost w data a k = (([], some err), w) := by
  simp [sesPost, NewRequest, h]

/-- When the endpoint parses, `sesPost` hands `postRequest` to the transport
and classifies the outcome. -/
theorem sesPost_eq (w : World) (data : Values) (a k : Bytes) (h : w.urlParse endpoint = none) :
    sesPost w data a k =
      match w.Do (postRequest w data a k) with
      | .error err =>
        (([], some err), (w.send (postRequest w data a k)).log (str "http error: " ++ err.Error))
      | .ok r =>
        if r.StatusCode ≠ 200 then
          (([], some (errorsNew (str "error code " ++ formatInt r.StatusCode ++
            str ". response: " ++ r.Body))),
           ((w.send (postRequest w data a k)).log
             (str "error, status = " ++ formatInt r.StatusCode)).log
             (str "error response: " ++ r.Body))
        else ((r.Body, none), w.send (postRequest w data a k)) := by
  simp only [sesPost, NewRequest, h, postHeader_eq]
  rfl

/-- The function `sesGet` hands `getRequest` to the transport and classifies
the outcome. -/
theorem sesGet_eq (w : World) (data : Values) (a k : Bytes) :
    sesGet w data a k =
      match w.Do (getRequest w data a k) with
      | .error err =>
        (([], some err), (w.send (getRequest w data a k)).log (str "http error: " ++ err.Error))
      | .ok r =>
        if r.StatusCode ≠ 200 then
          (([], some (errorsNew r.Body)),
           ((w.send (getRequest w data a k)).log
             (str "error, status = " ++ formatInt r.StatusCode)).log
             (str "error response: " ++ r.Body))
        else ((r.Body, none), w.send (getRequest w data a k)) := by
  simp only [sesGet, getHeader_eq]
  rfl

/-- When the endpoint parses, `sesPost` hands exactly one request to the
transport, whatever the outcome. -/
theorem sesPost_sent (w : World) (data : Values) (a k : Bytes) (h : w.urlParse endpoint = none) :
    (sesPost w data a k).2.sent = w.sent ++ [postRequest w data a k] := by
  rw [sesPost_eq w data a k h]
  cases w.Do (postRequest w data a k) with
  | error err => rfl
  | ok r => by_cases hc : r.StatusCode = 200 <;> simp [hc, World.send, World.log]

/-- The function `sesGet` hands exactly one request to the transport, whatever
the outcome. -/
theorem sesGet_sent (w : World) (data : Values) (a k : Bytes) :
    (sesGet w data a k).2.sent = w.sent ++ [getRequest w data a k] := by
  rw [sesGet_eq w data a k]
  cases w.Do (getRequest w data a k) with
  | error err => rfl
  | ok r => by_cases hc : r.StatusCode = 200 <;> simp [hc, World.send, World.log]

/-- The result of `sesPost` on a status other than 200. -/
theorem sesPost_non200 (w : World) (data : Values) (a k : Bytes) (r : Response)
    (h : w.urlParse endpoint = none) (hr : w.Do (postRequest w data a k) = .ok r)
    (hc : r.StatusCode ≠ 200) :
    (sesPost w data a k).1 =
      ([], some (errorsNew (str "error code " ++ formatInt r.StatusCode ++
        str ". response: " ++ r.Body))) := by
  rw [sesPost_eq w data a k h, hr]
  simp [hc]

/-- The result of `sesPost` on the status 200. -/
theorem sesPost_200 (w : World) (data : Values) (a k : Bytes) (r : Response)
    (h : w.urlParse endpoint = none) (hr : w.Do (postRequest w data a k) = .ok r)
    (hc : r.StatusCode = 200) : (sesPost w data a k).1 = (r.Body, none) := by
  rw [sesPost_eq w data a k h, hr]
  simp [hc]

/-- The result of `sesPost` on a transport error. -/
theorem sesPost_transport_error (w : World) (data : Values) (a k : Bytes) (err : GoError)
    (h : w.urlParse endpoint = none) (hr : w.Do (postRequest w data a k) = .error err) :
    (sesPost w data a k).1 = ([], some err) := by
  rw [sesPost_eq w data a k h, hr]

/-- The result of `sesGet` on a status other than 200: the error text is the
body alone. -/
theorem sesGet_non200 (w : World) (data : Values) (a k : Bytes) (r : Response)
    (hr : w.Do (getRequest w data a k) = .ok r) (hc : r.StatusCode ≠ 200) :
    (sesGet w data a k).1 = ([], some (errorsNew r.Body)) := by
  rw [sesGet_eq w data a k, hr]
  simp [hc]

/-- The result of `sesGet` on the status 200. -/
theorem sesGet_200 (w : World) (data : Values) (a k : Bytes) (r : Response)
    (hr : w.Do (getRequest w data a k) = .ok r) (hc : r.StatusCode = 200) :
    (sesGet w data a k).1 = (r.Body, none) := by
  rw [sesGet_eq w data a k, hr]
  simp [hc]

/-- The result of `sesGet` on a transport error. -/
theorem sesGet_transport_error (w : World) (data : Values) (a k : Bytes) (err : GoError)
    (hr : w.Do (getRequest w data a k) = .error err) :
    (sesGet w data a k).1 = ([], some err) := by
  rw [sesGet_eq w data a k, hr]

/-- A text occurs in every text built around it. -/
theorem contains_middle (pre mid post : Bytes) : Contains (pre ++ mid ++ post) mid :=
  ⟨pre, post, rfl⟩

/-! ## The claims -/

/-- C1: for every date string, access-key id and secret key,
`authorizationHeader` returns the single string
`AWS3-HTTPS AWSAccessKeyId=<id>, Algorithm=HmacSHA256, Signature=<sig>`, where
`<sig>` is the standard base64 encoding of the HMAC-SHA256 of the bytes of the
date under the bytes of the secret key; and the request that `sesPost` hands
to the transport carries exactly that value, for the date string of the clock
reading, as its `X-Amzn-Authorization` header. -/
theorem authorization_header_value (w : World) (data : Values) (d a k : Bytes) :
    authorizationHeader d a k =
        [str "AWS3-HTTPS AWSAccessKeyId=" ++ a ++ str ", Algorithm=HmacSHA256, Signature=" ++
          base64Encode (hmacSHA256 k d)] ∧
      (w.urlParse endpoint = none →
        ∃ req, (sesPost w data a k).2.sent = w.sent ++ [req] ∧
          req.Header.lookup (str "X-Amzn-Authorization") =
            some [str "AWS3-HTTPS AWSAccessKeyId=" ++ a ++
              str ", Algorithm=HmacSHA256, Signature=" ++
              base64Encode (hmacSHA256 k (formatDate w.now))] ∧
          req.Header.lookup (str "X-Amzn-Authorization") =
            some (authorizationHeader (formatDate w.now) a k)) := by
  refine ⟨rfl, fun h => ⟨postRequest w data a k, sesPost_sent w data a k h, rfl, rfl⟩⟩

/-- Witness of C1: the clock reads 2010-05-25 21:20:27 UTC and the credentials
are `AKID` and `secret`. -/
theorem authorization_header_value_witness :
    (worldAnswering okResponse).urlParse endpoint = none ∧
      ∃ req, (sesPost (worldAnswering okResponse) [] (str "AKID") (str "secret")).2.sent =
          (worldAnswering okResponse).sent ++ [req] ∧
        req.Header.lookup (str "X-Amzn-Authorization") =
          some [str ("AWS3-HTTPS AWSAccessKeyId=AKID, Algorithm=HmacSHA256, " ++
            "Signature=lRKTEZm1RpjC8HOIj/Z5vlNbYniA17UiPsGxb0WlojQ=")] ∧
        req.Header.lookup (str "X-Amzn-Authorization") =
          some (authorizationHeader (str "Tue, 25 May 2010 21:20:27 +0000")
            (str "AKID") (str "secret")) := by
  obtain ⟨req, h1, h2, h3⟩ :=
    (authorization_header_value (worldAnswering okResponse) [] [] (str "AKID")
      (str "secret")).2 rfl
  exact ⟨rfl, req, h1, h2.trans (by decide), h3.trans (by decide)⟩

/-- C2: in `sesGet` and in `sesPost` the request handed to the transport has as
its `Date` header the date string `d` of the clock reading, and its
`X-Amzn-Authorization` header carries the base64 encoding of the HMAC-SHA256
whose message is that same `d`.  (`sesPost` builds a request when the endpoint
parses; `sesGet` always does.) -/
theorem date_header_is_signing_input (w : World) (data : Values) (a k : Bytes) :
    (∃ req d, (sesGet w data a k).2.sent = w.sent ++ [req] ∧ d = formatDate w.now ∧
        req.Header.lookup (str "Date") = some [d] ∧
        req.Header.lookup (str "X-Amzn-Authorization") =
          some [str "AWS3-HTTPS AWSAccessKeyId=" ++ a ++
            str ", Algorithm=HmacSHA256, Signature=" ++ base64Encode (hmacSHA256 k d)]) ∧
      (w.urlParse endpoint = none →
        ∃ req d, (sesPost w data a k).2.sent = w.sent ++ [req] ∧ d = formatDate w.now ∧
          req.Header.lookup (str "Date") = some [d] ∧
          req.Header.lookup (str "X-Amzn-Authorization") =
            some [str "AWS3-HTTPS AWSAccessKeyId=" ++ a ++
              str ", Algorithm=HmacSHA256, Signature=" ++ base64Encode (hmacSHA256 k d)]) := by
  refine ⟨⟨getRequest w data a k, formatDate w.now, sesGet_sent w data a k, rfl, rfl, rfl⟩,
    fun h => ⟨postRequest w data a k, formatDate w.now, sesPost_sent w data a k h, rfl, rfl, rfl⟩⟩

/-- Witness of C2: the date of the request is `Tue, 25 May 2010 21:20:27 +0000`. -/
theorem date_header_is_signing_input_witness :
    (worldAnswering okResponse).urlParse endpoint = none ∧
      ∃ req d, (sesPost (worldAnswering okResponse) [] (str "AKID") (str "secret")).2.sent =
          (worldAnswering okResponse).sent ++ [req] ∧
        d = str "Tue, 25 May 2010 21:20:27 +0000" ∧
        req.Header.lookup (str "Date") = some [d] ∧
        req.Header.lookup (str "X-Amzn-Authorization") =
          some [str "AWS3-HTTPS AWSAccessKeyId=" ++ str "AKID" ++
            str ", Algorithm=HmacSHA256, Signature=" ++
            base64Encode (hmacSHA256 (str "secret") d)] := by
  obtain ⟨req, d, h1, h2, h3, h4⟩ :=
    (date_header_is_signing_input (worldAnswering okResponse) [] (str "AKID")
      (str "secret")).2 rfl
  exact ⟨rfl, req, d, h1, h2.trans (by decide), h3, h4⟩

/-- C3: the parameter set that `Send` passes to `sesPost` has the key
`Message.Body.Text.Data` exactly when `Body` is not empty, and then with the
one value `Body`; it has the key `Message.Body.Html.Data` exactly when
`HTMLBody` is not empty, and then with the one value `HTMLBody`. -/
theorem body_parameters_follow_email (w : World) (s : SES) (e : Email) :
    Send w s e = sesPost w (sendData s e) s.Auth.AccessKey s.Auth.SecretKey ∧
      (sendData s e).lookup (str "Message.Body.Text.Data") =
        (if e.Body ≠ [] then some [e.Body] else none) ∧
      (sendData s e).lookup (str "Message.Body.Html.Data") =
        (if e.HTMLBody ≠ [] then some [e.HTMLBody] else none) ∧
      (str "Message.Body.Text.Data" ∈ (sendData s e).keys ↔ e.Body ≠ []) ∧
      (str "Message.Body.Html.Data" ∈ (sendData s e).keys ↔ e.HTMLBody ≠ []) := by
  refine ⟨rfl, ?_, ?_, ?_, ?_⟩
  · rw [sendData_eq]
    by_cases hb : e.Body = [] <;> by_cases hh : e.HTMLBody = [] <;>
      simp only [hb, hh, ne_eq, not_true_eq_false, not_false_eq_true, if_true, if_false] <;> rfl
  · rw [sendData_eq]
    by_cases hb : e.Body = [] <;> by_cases hh : e.HTMLBody = [] <;>
      simp only [hb, hh, ne_eq, not_true_eq_false, not_false_eq_true, if_true, if_false] <;> rfl
  · rw [sendData_keys]
    by_cases hb : e.Body = [] <;> by_cases hh : e.HTMLBody = [] <;>
      simp only [hb, hh, ne_eq, not_true_eq_false, not_false_eq_true, if_true, if_false,
        iff_true, iff_false] <;> decide
  · rw [sendData_keys]
    by_cases hb : e.Body = [] <;> by_cases hh : e.HTMLBody = [] <;>
      simp only [hb, hh, ne_eq, not_true_eq_false, not_false_eq_true, if_true, if_false,
        iff_true, iff_false] <;> decide

/-- C4: whatever the fields of the email, the parameter set built by `Send`
has `Action`, `Source`, `Destination.ToAddresses.member.1`,
`Message.Subject.Data` and `AWSAccessKeyId`, each with exactly one value
(`SendEmail`, `From`, `To`, `Subject`, the access key); its keys are these five
and the optional body keys, nothing else; and the request `Send` hands to the
transport carries that set, encoded, as its body, and an authorization header
made with the same access key. -/
theorem required_parameters_always_present (w : World) (s : SES) (e : Email) :
    (sendData s e).lookup (str "Action") = some [str "SendEmail"] ∧
      (sendData s e).lookup (str "Source") = some [e.From] ∧
      (sendData s e).lookup (str "Destination.ToAddresses.member.1") = some [e.To] ∧
      (sendData s e).lookup (str "Message.Subject.Data") = some [e.Subject] ∧
      (sendData s e).lookup (str "AWSAccessKeyId") = some [s.Auth.AccessKey] ∧
      (sendData s e).keys =
        [str "Action", str "Source", str "Destination.ToAddresses.member.1",
         str "Message.Subject.Data"] ++
        (if e.Body ≠ [] then [str "Message.Body.Text.Data"] else []) ++
        (if e.HTMLBody ≠ [] then [str "Message.Body.Html.Data"] else []) ++
        [str "AWSAccessKeyId"] ∧
      (w.urlParse endpoint = none →
        ∃ req, (Send w s e).2.sent = w.sent ++ [req] ∧
          req.Body = (sendData s e).Encode ∧
          req.Header.lookup (str "X-Amzn-Authorization") =
            some (authorizationHeader (formatDate w.now) s.Auth.AccessKey s.Auth.SecretKey)) := by
  refine ⟨?_, ?_, ?_, ?_, ?_, sendData_keys s e, fun h =>
    ⟨postRequest w (sendData s e) s.Auth.AccessKey s.Auth.SecretKey,
      sesPost_sent w (sendData s e) s.Auth.AccessKey s.Auth.SecretKey h, rfl, rfl⟩⟩ <;>
  · rw [sendData_eq]
    by_cases hb : e.Body = [] <;> by_cases hh : e.HTMLBody = [] <;>
      simp only [hb, hh, ne_eq, not_true_eq_false, not_false_eq_true, if_true, if_false] <;> rfl

/-- Witness of C4: an email of which every field is empty. -/
theorem required_parameters_always_present_witness :
    (worldAnswering okResponse).urlParse endpoint = none ∧
      (sendData sampleClient ⟨[], [], [], [], []⟩).lookup (str "Source") = some [[]] ∧
      (sendData sampleClient ⟨[], [], [], [], []⟩).keys =
        [str "Action", str "Source", str "Destination.ToAddresses.member.1",
         str "Message.Subject.Data", str "AWSAccessKeyId"] ∧
      ∃ req, (Send (worldAnswering okResponse) sampleClient ⟨[], [], [], [], []⟩).2.sent =
          (worldAnswering okResponse).sent ++ [req] ∧
        req.Body = (sendData sampleClient ⟨[], [], [], [], []⟩).Encode ∧
        req.Header.lookup (str "X-Amzn-Authorization") =
          some (authorizationHeader (formatDate (worldAnswering okResponse).now)
            sampleClient.Auth.AccessKey sampleClient.Auth.SecretKey) :=
  ⟨rfl,
    (required_parameters_always_present (worldAnswering okResponse) sampleClient
      ⟨[], [], [], [], []⟩).2.1,
    (required_parameters_always_present (worldAnswering okResponse) sampleClient
      ⟨[], [], [], [], []⟩).2.2.2.2.2.1,
    (required_parameters_always_present (worldAnswering okResponse) sampleClient
      ⟨[], [], [], [], []⟩).2.2.2.2.2.2 rfl⟩

/-- C5: when the transport answers the request of `sesPost` with a status
other than 200 and a body `b`, `sesPost` returns the empty string and the error
whose text is `error code <status>. response: <b>`, which contains the decimal
digits of the status and contains `b` unchanged; `Send` does the same on the
request it builds. -/
theorem post_rejection_embeds_status_and_body (w : World) (data : Values) (a k : Bytes)
    (s : SES) (e : Email) (r : Response)
    (hparse : w.urlParse endpoint = none) (hstatus : r.StatusCode ≠ 200) :
    (w.Do (postRequest w data a k) = .ok r →
        ∃ err, (sesPost w data a k).1 = ([], some err) ∧
          err.Error = str "error code " ++ formatInt r.StatusCode ++ str ". response: " ++ r.Body ∧
          Contains err.Error (formatInt r.StatusCode) ∧ Contains err.Error r.Body) ∧
      (w.Do (postRequest w (sendData s e) s.Auth.AccessKey s.Auth.SecretKey) = .ok r →
        ∃ err, (Send w s e).1 = ([], some err) ∧
          err.Error = str "error code " ++ formatInt r.StatusCode ++ str ". response: " ++ r.Body ∧
          Contains err.Error (formatInt r.StatusCode) ∧ Contains err.Error r.Body) := by
  have hc : ∀ x y : Bytes,
      Contains (str "error code " ++ x ++ str ". response: " ++ y) x ∧
        Contains (str "error code " ++ x ++ str ". response: " ++ y) y := fun x y =>
    ⟨⟨str "error code ", str ". response: " ++ y, by simp only [List.append_assoc]⟩,
      ⟨str "error code " ++ x ++ str ". response: ", [], by simp only [List.append_nil]⟩⟩
  constructor
  · intro hr
    exact ⟨_, sesPost_non200 w data a k r hparse hr hstatus, rfl, hc _ _⟩
  · intro hr
    exact ⟨_, sesPost_non200 w (sendData s e) s.Auth.AccessKey s.Auth.SecretKey r hparse hr
      hstatus, rfl, hc _ _⟩

/-- Witness of C5: the status 403 with the body `AccessDenied` gives an error
whose text contains `403` and `AccessDenied`. -/
theorem post_rejection_embeds_status_and_body_witness :
    ∃ err, (Send (worldAnswering accessDenied) sampleClient sampleEmail).1 = ([], some err) ∧
      err.Error = str "error code 403. response: AccessDenied" ∧
      Contains err.Error (str "403") ∧ Contains err.Error (str "AccessDenied") := by
  obtain ⟨err, h1, h2, h3, h4⟩ :=
    (post_rejection_embeds_status_and_body (worldAnswering accessDenied) []
      (str "AKID") (str "secret") sampleClient sampleEmail accessDenied rfl (by decide)).2 rfl
  exact ⟨err, h1, h2.trans (by decide), h3, h4⟩

/-- C6: when the transport answers the request of `sesPost` with the status
200 and a body `b`, `sesPost` returns `b` unchanged and a nil error; `Send`
does the same on the request it builds. -/
theorem post_success_returns_body (w : World) (data : Values) (a k : Bytes)
    (s : SES) (e : Email) (r : Response)
    (hparse : w.urlParse endpoint = none) (hstatus : r.StatusCode = 200) :
    (w.Do (postRequest w data a k) = .ok r → (sesPost w data a k).1 = (r.Body, none)) ∧
      (w.Do (postRequest w (sendData s e) s.Auth.AccessKey s.Auth.SecretKey) = .ok r →
        (Send w s e).1 = (r.Body, none)) :=
  ⟨fun hr => sesPost_200 w data a k r hparse hr hstatus,
    fun hr => sesPost_200 w (sendData s e) s.Auth.AccessKey s.Auth.SecretKey r hparse hr hstatus⟩

/-- Witness of C6: the status 200 with the body `<ok/>` gives the result `<ok/>`. -/
theorem post_success_returns_body_witness :
    (sesPost (worldAnswering okResponse) [] (str "AKID") (str "secret")).1 =
        (str "<ok/>", none) ∧
      (Send (worldAnswering okResponse) sampleClient sampleEmail).1 = (str "<ok/>", none) :=
  ⟨(post_success_returns_body (worldAnswering okResponse) [] (str "AKID") (str "secret")
      sampleClient sampleEmail okResponse rfl rfl).1 rfl,
    (post_success_returns_body (worldAnswering okResponse) [] (str "AKID") (str "secret")
      sampleClient sampleEmail okResponse rfl rfl).2 rfl⟩

/-- C7: when the transport fails on the request with an error `err`, `sesGet`
and `sesPost` return the empty string with that same `err`, and the requests
handed to the transport during the call are that one request: there is no
second attempt. -/
theorem transport_error_returned_unchanged (w : World) (data : Values) (a k : Bytes)
    (err : GoError) :
    (w.Do (getRequest w data a k) = .error err →
        (sesGet w data a k).1 = ([], some err) ∧
          (sesGet w data a k).2.sent = w.sent ++ [getRequest w data a k] ∧
          (sesGet w data a k).2.sent.length = w.sent.length + 1) ∧
      (w.urlParse endpoint = none → w.Do (postRequest w data a k) = .error err →
        (sesPost w data a k).1 = ([], some err) ∧
          (sesPost w data a k).2.sent = w.sent ++ [postRequest w data a k] ∧
          (sesPost w data a k).2.sent.length = w.sent.length + 1) := by
  constructor
  · intro hr
    refine ⟨sesGet_transport_error w data a k err hr, sesGet_sent w data a k, ?_⟩
    rw [sesGet_sent]; simp
  · intro h hr
    refine ⟨sesPost_transport_error w data a k err h hr, sesPost_sent w data a k h, ?_⟩
    rw [sesPost_sent w data a k h]; simp

/-- Witness of C7: a transport that refuses the connection. -/
theorem transport_error_returned_unchanged_witness :
    ((sesGet (worldFailing dialError) [] (str "AKID") (str "secret")).1 = ([], some dialError) ∧
        (sesGet (worldFailing dialError) [] (str "AKID") (str "secret")).2.sent.length = 1) ∧
      ((sesPost (worldFailing dialError) [] (str "AKID") (str "secret")).1 =
          ([], some dialError) ∧
        (sesPost (worldFailing dialError) [] (str "AKID") (str "secret")).2.sent.length = 1) :=
  ⟨⟨((transport_error_returned_unchanged (worldFailing dialError) [] (str "AKID")
        (str "secret") dialError).1 rfl).1,
      ((transport_error_returned_unchanged (worldFailing dialError) [] (str "AKID")
        (str "secret") dialError).1 rfl).2.2⟩,
    ⟨((transport_error_returned_unchanged (worldFailing dialError) [] (str "AKID")
        (str "secret") dialError).2 rfl rfl).1,
      ((transport_error_returned_unchanged (worldFailing dialError) [] (str "AKID")
        (str "secret") dialError).2 rfl rfl).2.2⟩⟩

/-- C8: the code at the answer 403 with the body `AccessDenied`.  The error
of `sesGet` has the text `AccessDenied` alone, in which the digits of the
status do not occur, while `sesPost` returns on the same answer the text
`error code 403. response: AccessDenied`. -/
theorem get_rejection_omits_status :
    (sesGet (worldAnswering accessDenied) [] (str "AKID") (str "secret")).1 =
        ([], some (errorsNew (str "AccessDenied"))) ∧
      ¬ Contains (str "AccessDenied") (formatInt accessDenied.StatusCode) ∧
      (sesPost (worldAnswering accessDenied) [] (str "AKID") (str "secret")).1 =
        ([], some (errorsNew (str "error code 403. response: AccessDenied"))) := by
  refine ⟨sesGet_non200 _ _ _ _ accessDenied rfl (by decide), by decide, ?_⟩
  rw [sesPost_non200 _ _ _ _ accessDenied rfl rfl (by decide)]
  decide

/-- Counterexample to C9: the transport answers 200 and reading the body
fails with `unexpected EOF` after the bytes `<Send`; `sesPost` and `sesGet`
both return those bytes as the result, with a nil error. -/
theorem read_failure_returned_as_success :
    truncatedResponse.ReadErr = some ⟨str "unexpected EOF"⟩ ∧
      (worldAnswering truncatedResponse).Do
          (postRequest (worldAnswering truncatedResponse) [] (str "AKID") (str "secret")) =
        .ok truncatedResponse ∧
      (sesPost (worldAnswering truncatedResponse) [] (str "AKID") (str "secret")).1 =
        (str "<Send", none) ∧
      (worldAnswering truncatedResponse).Do
          (getRequest (worldAnswering truncatedResponse) [] (str "AKID") (str "secret")) =
        .ok truncatedResponse ∧
      (sesGet (worldAnswering truncatedResponse) [] (str "AKID") (str "secret")).1 =
        (str "<Send", none) :=
  ⟨rfl, rfl, sesPost_200 _ _ _ _ truncatedResponse rfl rfl rfl, rfl,
    sesGet_200 _ _ _ _ truncatedResponse rfl rfl⟩

/-- C9, amended: `sesPost` returns the error of building the request when the
endpoint does not parse; `sesPost` and `sesGet` return the error of the
transport when the exchange fails, and a non-nil error when the status is not
200.  The error of reading the body is discarded: on the status 200 the bytes
that were read are the result and the error is nil, whether or not the
reading failed. -/
theorem failures_reported_except_read_errors (w : World) (data : Values) (a k : Bytes) :
    (∀ err, w.urlParse endpoint = some err → (sesPost w data a k).1 = ([], some err)) ∧
      (∀ err, w.urlParse endpoint = none → w.Do (postRequest w data a k) = .error err →
        (sesPost w data a k).1 = ([], some err)) ∧
      (∀ r, w.urlParse endpoint = none → w.Do (postRequest w data a k) = .ok r →
        r.StatusCode ≠ 200 → (sesPost w data a k).1.2 ≠ none) ∧
      (∀ err, w.Do (getRequest w data a k) = .error err →
        (sesGet w data a k).1 = ([], some err)) ∧
      (∀ r, w.Do (getRequest w data a k) = .ok r → r.StatusCode ≠ 200 →
        (sesGet w data a k).1.2 ≠ none) ∧
      (∀ r, w.urlParse endpoint = none → w.Do (postRequest w data a k) = .ok r →
        r.StatusCode = 200 → (sesPost w data a k).1 = (r.Body, none)) ∧
      (∀ r, w.Do (getRequest w data a k) = .ok r → r.StatusCode = 200 →
        (sesGet w data a k).1 = (r.Body, none)) := by
  refine ⟨fun err h => ?_, fun err h hr => sesPost_transport_error w data a k err h hr,
    fun r h hr hc => ?_, fun err hr => sesGet_transport_error w data a k err hr,
    fun r hr hc => ?_, fun r h hr hc => sesPost_200 w data a k r h hr hc,
    fun r hr hc => sesGet_200 w data a k r hr hc⟩
  · rw [sesPost_unparsable w data a k err h]
  · rw [sesPost_non200 w data a k r h hr hc]; simp
  · rw [sesGet_non200 w data a k r hr hc]; simp

/-- Witness of C9, amended: an endpoint that does not parse, a refused
connection, the answer 403 and a truncated answer 200. -/
theorem failures_reported_except_read_errors_witness :
    (sesPost (worldUnparsable ⟨str "parse error"⟩) [] (str "AKID") (str "secret")).1 =
        ([], some ⟨str "parse error"⟩) ∧
      (sesPost (worldFailing dialError) [] (str "AKID") (str "secret")).1 =
        ([], some dialError) ∧
      (sesPost (worldAnswering accessDenied) [] (str "AKID") (str "secret")).1.2 ≠ none ∧
      (sesGet (worldFailing dialError) [] (str "AKID") (str "secret")).1 =
        ([], some dialError) ∧
      (sesGet (worldAnswering accessDenied) [] (str "AKID") (str "secret")).1.2 ≠ none ∧
      (sesPost (worldAnswering truncatedResponse) [] (str "AKID") (str "secret")).1 =
        (truncatedResponse.Body, none) ∧
      (sesGet (worldAnswering truncatedResponse) [] (str "AKID") (str "secret")).1 =
        (truncatedResponse.Body, none) :=
  ⟨(failures_reported_except_read_errors (worldUnparsable ⟨str "parse error"⟩) []
      (str "AKID") (str "secret")).1 _ rfl,
    (failures_reported_except_read_errors (worldFailing dialError) []
      (str "AKID") (str "secret")).2.1 _ rfl rfl,
    (failures_reported_except_read_errors (worldAnswering accessDenied) []
      (str "AKID") (str "secret")).2.2.1 accessDenied rfl rfl (by decide),
    (failures_reported_except_read_errors (worldFailing dialError) []
      (str "AKID") (str "secret")).2.2.2.1 _ rfl,
    (failures_reported_except_read_errors (worldAnswering accessDenied) []
      (str "AKID") (str "secret")).2.2.2.2.1 accessDenied rfl (by decide),
    (failures_reported_except_read_errors (worldAnswering truncatedResponse) []
      (str "AKID") (str "secret")).2.2.2.2.2.1 truncatedResponse rfl rfl rfl,
    (failures_reported_except_read_errors (worldAnswering truncatedResponse) []
      (str "AKID") (str "secret")).2.2.2.2.2.2 truncatedResponse rfl rfl⟩

/-- Counterexample to C10: for the sender `a`, the recipient `b`, the subject
`s`, no body and the access key `AKID`, the body of the request that `Send`
hands to the transport begins with `AWSAccessKeyId=AKID`; it is not the text
in the order of the specification, which begins with `Action=SendEmail` and
ends with the access key. -/
theorem post_body_not_in_listed_order :
    ∃ req, (Send (worldAnswering okResponse) sampleClient bareEmail).2.sent = [req] ∧
      req.Body =
        str ("AWSAccessKeyId=AKID&Action=SendEmail&Destination.ToAddresses.member.1=b" ++
          "&Message.Subject.Data=s&Source=a") ∧
      specOrderBody sampleClient bareEmail =
        str ("Action=SendEmail&Source=a&Destination.ToAddresses.member.1=b" ++
          "&Message.Subject.Data=s&AWSAccessKeyId=AKID") ∧
      req.Body ≠ specOrderBody sampleClient bareEmail := by
  refine ⟨postRequest (worldAnswering okResponse) (sendData sampleClient bareEmail)
    (str "AKID") (str "secret"), ?_, ?_, ?_, ?_⟩
  · exact sesPost_sent (worldAnswering okResponse) (sendData sampleClient bareEmail)
      (str "AKID") (str "secret") rfl
  · show (sendData sampleClient bareEmail).Encode = _
    decide
  · decide
  · show (sendData sampleClient bareEmail).Encode ≠ _
    decide

/-- C10, amended: the body of the request that `Send` hands to the transport
is the URL-encoded parameter set with the parameters in the order of their
keys: `AWSAccessKeyId=<id>&Action=SendEmail&Destination.ToAddresses.member.1=<to>`,
then `&Message.Body.Html.Data=<html>` if the HTML body is present, then
`&Message.Body.Text.Data=<text>` if the text body is present, then
`&Message.Subject.Data=<subject>&Source=<from>`, every value URL-encoded. -/
theorem post_body_is_key_sorted_encoding (w : World) (s : SES) (e : Email)
    (hparse : w.urlParse endpoint = none) :
    ∃ req, (Send w s e).2.sent = w.sent ++ [req] ∧
      req.Body =
        str "AWSAccessKeyId=" ++ QueryEscape s.Auth.AccessKey ++
          str "&Action=SendEmail&Destination.ToAddresses.member.1=" ++ QueryEscape e.To ++
          (if e.HTMLBody ≠ [] then str "&Message.Body.Html.Data=" ++ QueryEscape e.HTMLBody
           else []) ++
          (if e.Body ≠ [] then str "&Message.Body.Text.Data=" ++ QueryEscape e.Body else []) ++
          str "&Message.Subject.Data=" ++ QueryEscape e.Subject ++
          str "&Source=" ++ QueryEscape e.From :=
  ⟨postRequest w (sendData s e) s.Auth.AccessKey s.Auth.SecretKey,
    sesPost_sent w (sendData s e) s.Auth.AccessKey s.Auth.SecretKey hparse,
    sendData_encode s e⟩

/-- Witness of C10, amended: an email with both bodies, whose values need
escaping. -/
theorem post_body_is_key_sorted_encoding_witness :
    ∃ req, (Send (worldAnswering okResponse) sampleClient sampleEmail).2.sent =
        (worldAnswering okResponse).sent ++ [req] ∧
      req.Body =
        str ("AWSAccessKeyId=AKID&Action=SendEmail" ++
          "&Destination.ToAddresses.member.1=to%40example.com" ++
          "&Message.Body.Html.Data=%3Cb%3Ehello%3C%2Fb%3E&Message.Body.Text.Data=hello" ++
          "&Message.Subject.Data=Hi+there&Source=from%40example.org") := by
  obtain ⟨req, h1, h2⟩ :=
    post_body_is_key_sorted_encoding (worldAnswering okResponse) sampleClient sampleEmail rfl
  exact ⟨req, h1, h2.trans (by decide)⟩

end Ses
